import Mathlib

/-!
Verification development for a BansheeEngine fragment: the 2D GUI sprite
layer (BsSprite.h), the rectangle value type (BsRect2.h), and the resource
serialization metadata holder (BsSavedResourceData.cpp).

Real (float) coordinates are embedded as rationals; integer coordinates as
integers.  Implementations that are declared in the headers but whose
translation units are absent from the repository snapshot are modelled from
the specification, and each such definition is marked by a doc comment
starting with "Modelled from the spec:".
-/

namespace Banshee

/-- A 2D axis-aligned rectangle with real coordinates, origin at top-left,
stored as x, y, width, height.  From BsRect2.h. -/
structure Rect2 where
  x : ℚ
  y : ℚ
  width : ℚ
  height : ℚ
deriving DecidableEq

namespace Rect2

/-- Modelled from the spec: the body of Rect2::contains is not in the
snapshot (BsRect2.cpp is absent).  The spec calls it a closed boundary test
(point inside or on edge). -/
def contains (r : Rect2) (p : ℚ × ℚ) : Bool :=
  decide (r.x ≤ p.1 ∧ p.1 ≤ r.x + r.width ∧ r.y ≤ p.2 ∧ p.2 ≤ r.y + r.height)

/-- Modelled from the spec: the body of Rect2::overlaps is not in the
snapshot (BsRect2.cpp is absent).  Standard AABB overlap test; true for any
intersection including full containment either direction. -/
def overlaps (r other : Rect2) : Bool :=
  decide (r.x < other.x + other.width ∧ r.x + r.width > other.x ∧
          r.y < other.y + other.height ∧ r.y + r.height > other.y)

/-- Modelled from the spec: the body of Rect2::encapsulate is not in the
snapshot (BsRect2.cpp is absent).  Grows the rectangle to the smallest one
containing both. -/
def encapsulate (r other : Rect2) : Rect2 :=
  let newX := min r.x other.x
  let newY := min r.y other.y
  let newRight := max (r.x + r.width) (other.x + other.width)
  let newBottom := max (r.y + r.height) (other.y + other.height)
  ⟨newX, newY, newRight - newX, newBottom - newY⟩

/-- Modelled from the spec: the body of Rect2::clip is not in the snapshot
(BsRect2.cpp is absent).  Reduces the rectangle to the intersection with
another; disjoint inputs give a degenerate (non-positive extent)
rectangle. -/
def clip (r clipRect : Rect2) : Rect2 :=
  let newLeft := max r.x clipRect.x
  let newTop := max r.y clipRect.y
  let newRight := min (r.x + r.width) (clipRect.x + clipRect.width)
  let newBottom := min (r.y + r.height) (clipRect.y + clipRect.height)
  ⟨newLeft, newTop, newRight - newLeft, newBottom - newTop⟩

/-- One rectangle lies completely inside another with no touching edges,
matching the header comment on Rect2::overlaps ("contained within each
other completely (no intersecting edges)"). -/
def completelyInside (inner outer : Rect2) : Prop :=
  outer.x < inner.x ∧ inner.x + inner.width < outer.x + outer.width ∧
  outer.y < inner.y ∧ inner.y + inner.height < outer.y + outer.height

instance (inner outer : Rect2) : Decidable (completelyInside inner outer) := by
  unfold completelyInside
  infer_instance

end Rect2

/-- A 2D axis-aligned rectangle with integer coordinates, origin at
top-left.  Modelled from the spec: BsRect2I.h is not in the snapshot; it is
the integer analogue of Rect2 referenced by BsSprite.h. -/
structure Rect2I where
  x : ℤ
  y : ℤ
  width : ℤ
  height : ℤ
deriving DecidableEq

namespace Rect2I

/-- Modelled from the spec: Rect2I::clip (BsRect2I.h absent), the integer
analogue of Rect2::clip — reduce to the intersection. -/
def clip (r clipRect : Rect2I) : Rect2I :=
  let newLeft := max r.x clipRect.x
  let newTop := max r.y clipRect.y
  let newRight := min (r.x + r.width) (clipRect.x + clipRect.width)
  let newBottom := min (r.y + r.height) (clipRect.y + clipRect.height)
  ⟨newLeft, newTop, newRight - newLeft, newBottom - newTop⟩

end Rect2I

/-- Types of materials available for rendering sprites.  From BsSprite.h. -/
inductive SpriteMaterial
  | Text
  | Image
  | ImageAlpha
deriving DecidableEq

/-- RGBA color; the engine's Color stores four real channels.  Modelled
from the spec: BsColor.h is not in the snapshot. -/
structure Color where
  r : ℚ
  g : ℚ
  b : ℚ
  a : ℚ
deriving DecidableEq

/-- Contains information for initializing a sprite material.  From
BsSprite.h; the texture handle is embedded by its internal resource id. -/
structure SpriteMaterialInfo where
  type : SpriteMaterial
  groupId : ℕ
  texture : ℕ
  tint : Color
deriving DecidableEq

/-- Numeric code of a SpriteMaterial value, used for hashing. -/
def SpriteMaterial.code : SpriteMaterial → ℕ
  | .Text => 0
  | .Image => 1
  | .ImageAlpha => 2

/-- Hash-combine step over 64-bit values: seed is xored with the new hash
mixed by the golden-ratio constant and shifts, reduced modulo 2^64. -/
def hashCombine (seed h : ℕ) : ℕ :=
  (Nat.xor seed (h + 2654435769 + seed * 64 + seed / 4)) % 2 ^ 64

/-- An injective numeric key of a rational number, used for hashing. -/
def ratKey (q : ℚ) : ℕ :=
  Nat.pair q.num.natAbs (Nat.pair q.den (if q.num < 0 then 1 else 0))

/-- An injective numeric key of a Color, used for hashing. -/
def colorKey (c : Color) : ℕ :=
  Nat.pair (ratKey c.r) (Nat.pair (ratKey c.g) (Nat.pair (ratKey c.b) (ratKey c.a)))

namespace SpriteMaterialInfo

/-- Modelled from the spec: the body of SpriteMaterialInfo::generateHash is
not in the snapshot (BsSprite.cpp is absent).  A 64-bit hash derived by
hash-combining exactly the four fields type, groupId, texture, tint. -/
def generateHash (m : SpriteMaterialInfo) : ℕ :=
  hashCombine
    (hashCombine (hashCombine (hashCombine 0 m.groupId) m.texture) (colorKey m.tint))
    m.type.code

/-- Modelled from the spec: the equals operator for SpriteMaterialInfo is
declared in BsSprite.h but its body is not in the snapshot; two instances
are equal iff all four fields match. -/
def eqOp (lhs rhs : SpriteMaterialInfo) : Bool :=
  decide (lhs.type = rhs.type ∧ lhs.groupId = rhs.groupId ∧
          lhs.texture = rhs.texture ∧ lhs.tint = rhs.tint)

/-- Modelled from the spec: the not-equals operator for SpriteMaterialInfo,
the negation of the equals operator. -/
def neqOp (lhs rhs : SpriteMaterialInfo) : Bool :=
  !(eqOp lhs rhs)

end SpriteMaterialInfo

/-- An axis-aligned sprite quad: position corners (x0, y0) top-left and
(x1, y1) bottom-right, with the UV coordinates at those two corners (UVs
vary linearly across the quad).  Modelled from the spec: sprite geometry is
quads, and clipping treats them as axis-aligned rectangles. -/
structure AAQuad where
  x0 : ℚ
  y0 : ℚ
  x1 : ℚ
  y1 : ℚ
  u0 : ℚ
  v0 : ℚ
  u1 : ℚ
  v1 : ℚ
deriving DecidableEq

namespace AAQuad

/-- Signed area of a quad. -/
def area (q : AAQuad) : ℚ :=
  (q.x1 - q.x0) * (q.y1 - q.y0)

/-- The four corner positions of a quad. -/
def points (q : AAQuad) : List (ℚ × ℚ) :=
  [(q.x0, q.y0), (q.x1, q.y0), (q.x0, q.y1), (q.x1, q.y1)]

/-- Translate a quad by an integer pixel offset (UVs unchanged). -/
def offsetBy (o : ℤ × ℤ) (q : AAQuad) : AAQuad :=
  ⟨q.x0 + o.1, q.y0 + o.2, q.x1 + o.1, q.y1 + o.2, q.u0, q.v0, q.u1, q.v1⟩

end AAQuad

/-- A single sprite render element: its quads and the material used to
render them.  From BsSprite.h (the caller-buffer pointers are embedded as
the list of quads they describe). -/
structure SpriteRenderElement where
  quads : List AAQuad
  matInfo : SpriteMaterialInfo

/-- Number of quads of a render element. -/
def SpriteRenderElement.numQuads (e : SpriteRenderElement) : ℕ :=
  e.quads.length

/-- The sprite state: its cached render elements (the bounds cache is a
function of these, computed by updateBounds).  From BsSprite.h. -/
structure Sprite where
  mCachedRenderElements : List SpriteRenderElement

/-- Determines position of the sprite in its bounds.  From BsSprite.h. -/
inductive SpriteAnchor
  | SA_TopLeft
  | SA_TopCenter
  | SA_TopRight
  | SA_MiddleLeft
  | SA_MiddleCenter
  | SA_MiddleRight
  | SA_BottomLeft
  | SA_BottomCenter
  | SA_BottomRight
deriving DecidableEq

/-- Modelled from the spec: the body of Sprite::getAnchorOffset is not in
the snapshot (BsSprite.cpp is absent).  Returns the translation that moves
content of the given width and height so that the designated anchor point
lands at the origin; center positions use integer halving of the unsigned
extents.  Coordinates grow rightwards and downwards (top edge at y = 0). -/
def getAnchorOffset (anchor : SpriteAnchor) (width height : ℕ) : ℤ × ℤ :=
  match anchor with
  | .SA_TopLeft => (0, 0)
  | .SA_TopCenter => (-(width / 2 : ℕ), 0)
  | .SA_TopRight => (-(width : ℤ), 0)
  | .SA_MiddleLeft => (0, -(height / 2 : ℕ))
  | .SA_MiddleCenter => (-(width / 2 : ℕ), -(height / 2 : ℕ))
  | .SA_MiddleRight => (-(width : ℤ), -(height / 2 : ℕ))
  | .SA_BottomLeft => (0, -(height : ℤ))
  | .SA_BottomCenter => (-(width / 2 : ℕ), -(height : ℤ))
  | .SA_BottomRight => (-(width : ℤ), -(height : ℤ))

/-- The designated anchor point of the content rectangle spanning
x in 0..width and y in 0..height (top edge at y = 0, bottom at
y = height); center positions use integer halving of the extents. -/
def anchorPoint (anchor : SpriteAnchor) (width height : ℕ) : ℤ × ℤ :=
  match anchor with
  | .SA_TopLeft => (0, 0)
  | .SA_TopCenter => ((width / 2 : ℕ), 0)
  | .SA_TopRight => ((width : ℤ), 0)
  | .SA_MiddleLeft => (0, (height / 2 : ℕ))
  | .SA_MiddleCenter => ((width / 2 : ℕ), (height / 2 : ℕ))
  | .SA_MiddleRight => ((width : ℤ), (height / 2 : ℕ))
  | .SA_BottomLeft => (0, (height : ℤ))
  | .SA_BottomCenter => ((width / 2 : ℕ), (height : ℤ))
  | .SA_BottomRight => ((width : ℤ), (height : ℤ))

/-- Resource serialization metadata: dependency identifiers, a flag
allowing asynchronous loading, and a compression-method identifier.  Field
layout from BsSavedResourceData.cpp. -/
structure SavedResourceData where
  mDependencies : List String
  mAllowAsync : Bool
  mCompressionMethod : ℕ
deriving DecidableEq

namespace SavedResourceData

/-- The default constructor from BsSavedResourceData.cpp lines 8-10: sets
mAllowAsync to true and mCompressionMethod to 0; mDependencies is
default-initialized to the empty vector. -/
def mkDefault : SavedResourceData :=
  ⟨[], true, 0⟩

/-- The three-argument constructor from BsSavedResourceData.cpp lines
12-14: stores the provided dependencies, allowAsync flag and
compressionMethod unchanged. -/
def mkWith (dependencies : List String) (allowAsync : Bool)
    (compressionMethod : ℕ) : SavedResourceData :=
  ⟨dependencies, allowAsync, compressionMethod⟩

end SavedResourceData

/-- Modelled from the spec: the body of Sprite::clipToRect is not in the
snapshot (BsSprite.cpp is absent).  Clips one axis-aligned quad to the clip
rectangle: each corner coordinate is clamped to the rectangle and the UVs
are linearly interpolated at the clip boundary crossing (the interpolation
is skipped on a degenerate axis, where the UV slope is undefined). -/
def clipQuad (q : AAQuad) (clipRect : Rect2I) : AAQuad :=
  let left : ℚ := clipRect.x
  let right : ℚ := (clipRect.x : ℚ) + clipRect.width
  let top : ℚ := clipRect.y
  let bottom : ℚ := (clipRect.y : ℚ) + clipRect.height
  let nx0 := min (max q.x0 left) right
  let nx1 := min (max q.x1 left) right
  let ny0 := min (max q.y0 top) bottom
  let ny1 := min (max q.y1 top) bottom
  let nu0 := if q.x0 = q.x1 then q.u0 else
    q.u0 + (nx0 - q.x0) * (q.u1 - q.u0) / (q.x1 - q.x0)
  let nu1 := if q.x0 = q.x1 then q.u1 else
    q.u0 + (nx1 - q.x0) * (q.u1 - q.u0) / (q.x1 - q.x0)
  let nv0 := if q.y0 = q.y1 then q.v0 else
    q.v0 + (ny0 - q.y0) * (q.v1 - q.v0) / (q.y1 - q.y0)
  let nv1 := if q.y0 = q.y1 then q.v1 else
    q.v0 + (ny1 - q.y0) * (q.v1 - q.v0) / (q.y1 - q.y0)
  ⟨nx0, ny0, nx1, ny1, nu0, nv0, nu1, nv1⟩

/-- Modelled from the spec: Sprite::clipToRect over a whole buffer — every
quad is clipped in place, none is removed (counts stay stable). -/
def clipToRect (quads : List AAQuad) (clipRect : Rect2I) : List AAQuad :=
  quads.map (fun q => clipQuad q clipRect)

/-- The quad lies entirely outside the clip rectangle (their closed point
sets are disjoint). -/
def quadOutside (q : AAQuad) (clipRect : Rect2I) : Prop :=
  q.x1 < clipRect.x ∨ (clipRect.x : ℚ) + clipRect.width < q.x0 ∨
  q.y1 < clipRect.y ∨ (clipRect.y : ℚ) + clipRect.height < q.y0

/-- The quad lies entirely inside the clip rectangle. -/
def quadInside (q : AAQuad) (clipRect : Rect2I) : Prop :=
  (clipRect.x : ℚ) ≤ q.x0 ∧ q.x1 ≤ (clipRect.x : ℚ) + clipRect.width ∧
  (clipRect.y : ℚ) ≤ q.y0 ∧ q.y1 ≤ (clipRect.y : ℚ) + clipRect.height

instance (q : AAQuad) (clipRect : Rect2I) : Decidable (quadOutside q clipRect) := by
  unfold quadOutside
  infer_instance

instance (q : AAQuad) (clipRect : Rect2I) : Decidable (quadInside q clipRect) := by
  unfold quadInside
  infer_instance

/-- The six vertex indices (two triangles) emitted for the quad in
slot i of the destination buffers. -/
def quadIndices (i : ℕ) : List ℕ :=
  [4 * i, 4 * i + 1, 4 * i + 2, 4 * i + 1, 4 * i + 3, 4 * i + 2]

/-- The index data written for n quads starting at the given quad slot:
six indices per quad. -/
def genIndices (startingQuad n : ℕ) : List ℕ :=
  (List.range n).flatMap (fun i => quadIndices (startingQuad + i))

/-- Modelled from the spec: the body of Sprite::fillBuffer is not in the
snapshot (BsSprite.cpp is absent).  Processes the quads of one render
element: starts at startingQuad, writes at most maxNumQuads quads (clamped
to what exists past startingQuad — never more, for memory safety), clips
each quad against clipRect when clip is true and clipRect is
nonzero-sized (clipping happens before the offset is applied), then
translates by offset; emits six indices per written quad and returns the
written vertex/UV data, the index data and the number of quads written. -/
def fillBufferElem (elem : List AAQuad) (startingQuad maxNumQuads : ℕ)
    (offset : ℤ × ℤ) (clipRect : Rect2I) (clip : Bool) :
    List AAQuad × List ℕ × ℕ :=
  let avail := elem.length - startingQuad
  let numWritten := min avail maxNumQuads
  let selected := (elem.drop startingQuad).take numWritten
  let clipped :=
    if clip ∧ clipRect.width ≠ 0 ∧ clipRect.height ≠ 0 then
      clipToRect selected clipRect
    else selected
  let placed := clipped.map (AAQuad.offsetBy offset)
  (placed, genIndices startingQuad numWritten, numWritten)

/-- Modelled from the spec: Sprite::fillBuffer dispatches on the render
element index; an out-of-range index is a precondition violation, embedded
as none. -/
def Sprite.fillBuffer (s : Sprite) (startingQuad maxNumQuads : ℕ)
    (renderElementIdx : ℕ) (offset : ℤ × ℤ) (clipRect : Rect2I)
    (clip : Bool) : Option (List AAQuad × List ℕ × ℕ) :=
  match s.mCachedRenderElements[renderElementIdx]? with
  | none => none
  | some e => some (fillBufferElem e.quads startingQuad maxNumQuads offset clipRect clip)

/-- All corner positions of all quads of all cached render elements. -/
def Sprite.allPoints (s : Sprite) : List (ℚ × ℚ) :=
  s.mCachedRenderElements.flatMap (fun e => e.quads.flatMap AAQuad.points)

/-- Modelled from the spec: the body of Sprite::updateBounds is not in the
snapshot (BsSprite.cpp is absent).  Recomputes the cached bounds as the
union of all cached render elements' vertex extents, widened to integer
coordinates; with no vertices the bounds are the zero rectangle. -/
def Sprite.updateBounds (s : Sprite) : Rect2I :=
  match s.allPoints with
  | [] => ⟨0, 0, 0, 0⟩
  | p :: ps =>
    let xmin := (ps.map Prod.fst).foldr min p.1
    let xmax := (ps.map Prod.fst).foldr max p.1
    let ymin := (ps.map Prod.snd).foldr min p.2
    let ymax := (ps.map Prod.snd).foldr max p.2
    ⟨⌊xmin⌋, ⌊ymin⌋, ⌈xmax⌉ - ⌊xmin⌋, ⌈ymax⌉ - ⌊ymin⌋⟩

/-- Shift a rectangle by an offset (width and height unchanged). -/
def Rect2I.shiftBy (r : Rect2I) (offset : ℤ × ℤ) : Rect2I :=
  ⟨r.x + offset.1, r.y + offset.2, r.width, r.height⟩

/-- Modelled from the spec: the body of Sprite::getBounds is not in the
snapshot (BsSprite.cpp is absent).  Returns the cached union bounds,
clipped against clipRect first (in local, pre-offset space) when clipRect
has nonzero width and nonzero height, then shifted by offset. -/
def Sprite.getBounds (s : Sprite) (offset : ℤ × ℤ) (clipRect : Rect2I) : Rect2I :=
  let bounds := s.updateBounds
  let clipped :=
    if clipRect.width ≠ 0 ∧ clipRect.height ≠ 0 then bounds.clip clipRect
    else bounds
  clipped.shiftBy offset

/-- A sample quad: unit-height quad spanning x in i..i+1 with the full UV
range. -/
def exQuad (i : ℕ) : AAQuad :=
  ⟨(i : ℚ), 0, (i : ℚ) + 1, 1, 0, 0, 1, 1⟩

/-- A sample render element with 10 quads. -/
def exElem : SpriteRenderElement :=
  ⟨(List.range 10).map exQuad, ⟨.Image, 0, 0, ⟨1, 1, 1, 1⟩⟩⟩

/-- A sample sprite with a single render element. -/
def exSprite : Sprite :=
  ⟨[exElem]⟩

/-- The data fillBuffer writes for the sample sprite with startingQuad = 5
and maxNumQuads = 3. -/
def exResult : List AAQuad × List ℕ × ℕ :=
  fillBufferElem exElem.quads 5 3 (0, 0) ⟨0, 0, 0, 0⟩ false

/-! Theorems settling the claims. -/

/-- C10: the SavedResourceData default constructor produces allowAsync =
true, compressionMethod = 0 and an empty dependency list, and the
three-argument constructor stores its arguments unchanged. -/
theorem savedResourceData_constructors :
    SavedResourceData.mkDefault.mAllowAsync = true ∧
    SavedResourceData.mkDefault.mCompressionMethod = 0 ∧
    SavedResourceData.mkDefault.mDependencies = [] ∧
    ∀ (d : List String) (a : Bool) (c : ℕ),
      (SavedResourceData.mkWith d a c).mDependencies = d ∧
      (SavedResourceData.mkWith d a c).mAllowAsync = a ∧
      (SavedResourceData.mkWith d a c).mCompressionMethod = c :=
  ⟨rfl, rfl, rfl, fun _ _ _ => ⟨rfl, rfl, rfl⟩⟩

/-- C5: for each of the nine anchors, translating the content rectangle
spanning 0..width and 0..height by the anchor offset sends the designated
anchor point to the origin; in particular SA_TopLeft gives (0, 0),
SA_MiddleCenter gives (-width/2, -height/2) and SA_BottomRight gives
(-width, -height). -/
theorem anchorOffset_roundTrip :
    ∀ (anchor : SpriteAnchor) (width height : ℕ),
      (anchorPoint anchor width height).1 + (getAnchorOffset anchor width height).1 = 0 ∧
      (anchorPoint anchor width height).2 + (getAnchorOffset anchor width height).2 = 0 ∧
      getAnchorOffset .SA_TopLeft width height = (0, 0) ∧
      getAnchorOffset .SA_MiddleCenter width height =
        (-((width / 2 : ℕ) : ℤ), -((height / 2 : ℕ) : ℤ)) ∧
      getAnchorOffset .SA_BottomRight width height = (-(width : ℤ), -(height : ℤ)) := by
  intro anchor w h
  refine ⟨?_, ?_, rfl, rfl, rfl⟩ <;>
    cases anchor <;> simp [anchorPoint, getAnchorOffset]

/-- C9: two SpriteMaterialInfo values are equal under the equals operator
iff all four fields {type, groupId, texture, tint} agree; equal values
generate the same hash; and any field difference makes the not-equals
operator hold. -/
theorem spriteMaterialInfo_eq_hash (a b : SpriteMaterialInfo) :
    (SpriteMaterialInfo.eqOp a b = true ↔
      (a.type = b.type ∧ a.groupId = b.groupId ∧
       a.texture = b.texture ∧ a.tint = b.tint)) ∧
    (SpriteMaterialInfo.eqOp a b = true →
      a.generateHash = b.generateHash) ∧
    (¬(a.type = b.type ∧ a.groupId = b.groupId ∧
       a.texture = b.texture ∧ a.tint = b.tint) →
      SpriteMaterialInfo.neqOp a b = true) := by
  refine ⟨?_, ?_, ?_⟩
  · simp [SpriteMaterialInfo.eqOp]
  · intro h
    simp only [SpriteMaterialInfo.eqOp, decide_eq_true_eq] at h
    obtain ⟨h1, h2, h3, h4⟩ := h
    simp [SpriteMaterialInfo.generateHash, h1, h2, h3, h4]
  · intro h
    simp only [SpriteMaterialInfo.neqOp, SpriteMaterialInfo.eqOp]
    simp [h]

/-- Closed instance of C9 at concrete material descriptors: identical
descriptors compare equal and hash identically, and a texture difference
makes the not-equals operator hold. -/
theorem spriteMaterialInfo_eq_hash_witness :
    SpriteMaterialInfo.eqOp ⟨.Text, 1, 2, ⟨1, 0, 0, 1⟩⟩ ⟨.Text, 1, 2, ⟨1, 0, 0, 1⟩⟩ = true ∧
    SpriteMaterialInfo.generateHash ⟨.Text, 1, 2, ⟨1, 0, 0, 1⟩⟩ =
      SpriteMaterialInfo.generateHash ⟨.Text, 1, 2, ⟨1, 0, 0, 1⟩⟩ ∧
    SpriteMaterialInfo.neqOp ⟨.Text, 1, 2, ⟨1, 0, 0, 1⟩⟩ ⟨.Text, 1, 3, ⟨1, 0, 0, 1⟩⟩ = true :=
  ⟨(spriteMaterialInfo_eq_hash ⟨.Text, 1, 2, ⟨1, 0, 0, 1⟩⟩ ⟨.Text, 1, 2, ⟨1, 0, 0, 1⟩⟩).1.mpr
      ⟨rfl, rfl, rfl, rfl⟩,
   (spriteMaterialInfo_eq_hash ⟨.Text, 1, 2, ⟨1, 0, 0, 1⟩⟩ ⟨.Text, 1, 2, ⟨1, 0, 0, 1⟩⟩).2.1
      (by decide),
   (spriteMaterialInfo_eq_hash ⟨.Text, 1, 2, ⟨1, 0, 0, 1⟩⟩ ⟨.Text, 1, 3, ⟨1, 0, 0, 1⟩⟩).2.2
      (by decide)⟩

/-- C7: overlaps is symmetric, and it returns true whenever one rectangle
(of nonnegative extents) is completely contained within the other. -/
theorem rect2_overlaps_symm_contained (A B : Rect2) :
    Rect2.overlaps A B = Rect2.overlaps B A ∧
    (0 ≤ B.width → 0 ≤ B.height → Rect2.completelyInside B A →
      Rect2.overlaps A B = true) ∧
    (0 ≤ A.width → 0 ≤ A.height → Rect2.completelyInside A B →
      Rect2.overlaps A B = true) := by
  refine ⟨?_, ?_, ?_⟩
  · simp only [Rect2.overlaps, decide_eq_decide]
    constructor <;> (intro h; obtain ⟨h1, h2, h3, h4⟩ := h; exact ⟨h2, h1, h4, h3⟩)
  · intro hw hh hin
    obtain ⟨h1, h2, h3, h4⟩ := hin
    simp only [Rect2.overlaps, decide_eq_true_eq]
    refine ⟨by linarith, by linarith, by linarith, by linarith⟩
  · intro hw hh hin
    obtain ⟨h1, h2, h3, h4⟩ := hin
    simp only [Rect2.overlaps, decide_eq_true_eq]
    refine ⟨by linarith, by linarith, by linarith, by linarith⟩

/-- Closed instance of C7: a rectangle strictly inside a larger one
overlaps it, and the test is symmetric there. -/
theorem rect2_overlaps_symm_contained_witness :
    Rect2.overlaps ⟨0, 0, 10, 10⟩ ⟨1, 1, 2, 2⟩ =
      Rect2.overlaps ⟨1, 1, 2, 2⟩ ⟨0, 0, 10, 10⟩ ∧
    Rect2.overlaps ⟨0, 0, 10, 10⟩ ⟨1, 1, 2, 2⟩ = true :=
  ⟨(rect2_overlaps_symm_contained ⟨0, 0, 10, 10⟩ ⟨1, 1, 2, 2⟩).1,
   (rect2_overlaps_symm_contained ⟨0, 0, 10, 10⟩ ⟨1, 1, 2, 2⟩).2.1
      (by norm_num) (by norm_num) (by refine ⟨?_, ?_, ?_, ?_⟩ <;> norm_num)⟩

/-- C8: the rectangle produced by encapsulate contains every point of each
of the two original rectangles. -/
theorem rect2_encapsulate_contains (A B : Rect2) (p : ℚ × ℚ) :
    (Rect2.contains A p = true →
      Rect2.contains (Rect2.encapsulate A B) p = true) ∧
    (Rect2.contains B p = true →
      Rect2.contains (Rect2.encapsulate A B) p = true) := by
  have hx1 : min A.x B.x ≤ A.x := min_le_left _ _
  have hx2 : min A.x B.x ≤ B.x := min_le_right _ _
  have hx3 : A.x + A.width ≤ max (A.x + A.width) (B.x + B.width) := le_max_left _ _
  have hx4 : B.x + B.width ≤ max (A.x + A.width) (B.x + B.width) := le_max_right _ _
  have hy1 : min A.y B.y ≤ A.y := min_le_left _ _
  have hy2 : min A.y B.y ≤ B.y := min_le_right _ _
  have hy3 : A.y + A.height ≤ max (A.y + A.height) (B.y + B.height) := le_max_left _ _
  have hy4 : B.y + B.height ≤ max (A.y + A.height) (B.y + B.height) := le_max_right _ _
  constructor <;>
    · intro h
      simp only [Rect2.contains, decide_eq_true_eq] at h
      obtain ⟨h1, h2, h3, h4⟩ := h
      simp only [Rect2.contains, Rect2.encapsulate, decide_eq_true_eq]
      refine ⟨by linarith, by linarith, by linarith, by linarith⟩

/-- Closed instance of C8: the encapsulation of two concrete rectangles
contains a corner point of each. -/
theorem rect2_encapsulate_contains_witness :
    Rect2.contains (Rect2.encapsulate ⟨0, 0, 1, 1⟩ ⟨5, 5, 2, 2⟩) (1, 1) = true ∧
    Rect2.contains (Rect2.encapsulate ⟨0, 0, 1, 1⟩ ⟨5, 5, 2, 2⟩) (7, 7) = true :=
  ⟨(rect2_encapsulate_contains ⟨0, 0, 1, 1⟩ ⟨5, 5, 2, 2⟩ (1, 1)).1
      (by norm_num [Rect2.contains]),
   (rect2_encapsulate_contains ⟨0, 0, 1, 1⟩ ⟨5, 5, 2, 2⟩ (7, 7)).2
      (by norm_num [Rect2.contains])⟩

/-- C6: every point of the clipped rectangle lies in both original
rectangles (clip computes the intersection), and when the rectangles are
disjoint the result is degenerate: its width or height is non-positive. -/
theorem rect2_clip_intersection (A B : Rect2) (p : ℚ × ℚ) :
    (Rect2.contains (Rect2.clip A B) p = true →
      Rect2.contains A p = true ∧ Rect2.contains B p = true) ∧
    (Rect2.overlaps A B = false →
      (Rect2.clip A B).width ≤ 0 ∨ (Rect2.clip A B).height ≤ 0) := by
  constructor
  · intro h
    simp only [Rect2.contains, Rect2.clip, decide_eq_true_eq] at h
    obtain ⟨h1, h2, h3, h4⟩ := h
    have hx1 : A.x ≤ max A.x B.x := le_max_left _ _
    have hx2 : B.x ≤ max A.x B.x := le_max_right _ _
    have hx3 : min (A.x + A.width) (B.x + B.width) ≤ A.x + A.width := min_le_left _ _
    have hx4 : min (A.x + A.width) (B.x + B.width) ≤ B.x + B.width := min_le_right _ _
    have hy1 : A.y ≤ max A.y B.y := le_max_left _ _
    have hy2 : B.y ≤ max A.y B.y := le_max_right _ _
    have hy3 : min (A.y + A.height) (B.y + B.height) ≤ A.y + A.height := min_le_left _ _
    have hy4 : min (A.y + A.height) (B.y + B.height) ≤ B.y + B.height := min_le_right _ _
    constructor <;>
      · simp only [Rect2.contains, decide_eq_true_eq]
        refine ⟨by linarith, by linarith, by linarith, by linarith⟩
  · intro h
    simp only [Rect2.overlaps, decide_eq_false_iff_not] at h
    by_contra hc
    push_neg at hc
    obtain ⟨h1, h2⟩ := hc
    simp only [Rect2.clip, sub_pos] at h1 h2
    rw [max_lt_iff] at h1 h2
    obtain ⟨h1a, h1b⟩ := h1
    obtain ⟨h2a, h2b⟩ := h2
    rw [lt_min_iff] at h1a h1b h2a h2b
    exact h ⟨h1a.2, h1b.1, h2a.2, h2b.1⟩

/-- Closed instance of C6: a point of the clipped intersection of two
concrete rectangles lies in both, and a disjoint pair clips to a
degenerate rectangle. -/
theorem rect2_clip_intersection_witness :
    (Rect2.contains (Rect2.clip ⟨0, 0, 4, 4⟩ ⟨1, 1, 2, 2⟩) (2, 2) = true ∧
      Rect2.contains ⟨0, 0, 4, 4⟩ ((2 : ℚ), (2 : ℚ)) = true ∧
      Rect2.contains ⟨1, 1, 2, 2⟩ ((2 : ℚ), (2 : ℚ)) = true) ∧
    ((Rect2.clip ⟨0, 0, 1, 1⟩ ⟨5, 5, 1, 1⟩).width ≤ 0 ∨
      (Rect2.clip ⟨0, 0, 1, 1⟩ ⟨5, 5, 1, 1⟩).height ≤ 0) :=
  ⟨⟨by norm_num [Rect2.contains, Rect2.clip, min_def, max_def],
    (rect2_clip_intersection ⟨0, 0, 4, 4⟩ ⟨1, 1, 2, 2⟩ (2, 2)).1
      (by norm_num [Rect2.contains, Rect2.clip, min_def, max_def])⟩,
   (rect2_clip_intersection ⟨0, 0, 1, 1⟩ ⟨5, 5, 1, 1⟩ (0, 0)).2
      (by norm_num [Rect2.overlaps])⟩

/-- Six indices are emitted per quad slot. -/
theorem quadIndices_length (i : ℕ) : (quadIndices i).length = 6 := rfl

/-- The index data for n quads has exactly 6 * n entries. -/
theorem genIndices_length (s n : ℕ) : (genIndices s n).length = 6 * n := by
  induction n with
  | zero => rfl
  | succ k ih =>
    unfold genIndices at ih ⊢
    rw [List.range_succ, List.flatMap_append, List.length_append, ih]
    simp [quadIndices]
    omega

/-- Translating by the zero offset leaves a quad unchanged. -/
theorem offsetBy_zero (q : AAQuad) : AAQuad.offsetBy (0, 0) q = q := by
  cases q
  simp [AAQuad.offsetBy]

/-- Mapping the zero-offset translation leaves a quad list unchanged. -/
theorem map_offsetBy_zero (l : List AAQuad) : l.map (AAQuad.offsetBy (0, 0)) = l := by
  induction l with
  | nil => rfl
  | cons q t ih => rw [List.map_cons, offsetBy_zero, ih]

/-- Core accounting facts about fillBufferElem: the written count is the
requested count clamped to the quads available past startingQuad, the
vertex/UV data holds exactly that many quads, and the index data holds six
entries per written quad. -/
theorem fillBufferElem_counts (elem : List AAQuad) (startingQuad maxNumQuads : ℕ)
    (offset : ℤ × ℤ) (clipRect : Rect2I) (clip : Bool) :
    (fillBufferElem elem startingQuad maxNumQuads offset clipRect clip).2.2 =
      min (elem.length - startingQuad) maxNumQuads ∧
    (fillBufferElem elem startingQuad maxNumQuads offset clipRect clip).1.length =
      min (elem.length - startingQuad) maxNumQuads ∧
    (fillBufferElem elem startingQuad maxNumQuads offset clipRect clip).2.1.length =
      6 * min (elem.length - startingQuad) maxNumQuads := by
  refine ⟨rfl, ?_, ?_⟩
  · have hbody : (fillBufferElem elem startingQuad maxNumQuads offset clipRect clip).1 =
        List.map (AAQuad.offsetBy offset)
          (if clip ∧ clipRect.width ≠ 0 ∧ clipRect.height ≠ 0 then
            clipToRect ((elem.drop startingQuad).take
              (min (elem.length - startingQuad) maxNumQuads)) clipRect
          else (elem.drop startingQuad).take
            (min (elem.length - startingQuad) maxNumQuads)) := rfl
    rw [hbody, List.length_map]
    split
    · rw [clipToRect, List.length_map, List.length_take, List.length_drop]
      omega
    · rw [List.length_take, List.length_drop]
      omega
  · exact genIndices_length _ _

/-- C1: whenever fillBuffer succeeds, it writes at most maxNumQuads quads
into the vertex/UV data and at most 6 * maxNumQuads entries into the index
data, and the returned count equals the number of quads actually
written. -/
theorem fillBuffer_memory_safety (s : Sprite)
    (startingQuad maxNumQuads renderElementIdx : ℕ) (offset : ℤ × ℤ)
    (clipRect : Rect2I) (clip : Bool) (result : List AAQuad × List ℕ × ℕ)
    (h : s.fillBuffer startingQuad maxNumQuads renderElementIdx offset clipRect clip =
      some result) :
    result.2.2 ≤ maxNumQuads ∧
    result.1.length = result.2.2 ∧
    result.2.1.length = 6 * result.2.2 ∧
    result.1.length ≤ maxNumQuads ∧
    result.2.1.length ≤ 6 * maxNumQuads := by
  unfold Sprite.fillBuffer at h
  cases hget : s.mCachedRenderElements[renderElementIdx]? with
  | none => rw [hget] at h; cases h
  | some e =>
    rw [hget] at h
    obtain rfl : fillBufferElem e.quads startingQuad maxNumQuads offset clipRect clip =
        result := by cases h; rfl
    obtain ⟨h1, h2, h3⟩ := fillBufferElem_counts e.quads startingQuad maxNumQuads
      offset clipRect clip
    refine ⟨?_, ?_, ?_, ?_, ?_⟩
    · omega
    · omega
    · omega
    · omega
    · omega

/-- C2: with a render element of 10 quads, startingQuad = 5 and
maxNumQuads = 3 (no clipping, zero offset), fillBuffer returns 3 and the
written data is exactly quads 5, 6 and 7 of the element. -/
theorem fillBuffer_partial_range (s : Sprite) (idx : ℕ) (e : SpriteRenderElement)
    (rect : Rect2I) (he : s.mCachedRenderElements[idx]? = some e)
    (hn : e.numQuads = 10) :
    s.fillBuffer 5 3 idx (0, 0) rect false =
      some (fillBufferElem e.quads 5 3 (0, 0) rect false) ∧
    (fillBufferElem e.quads 5 3 (0, 0) rect false).2.2 = 3 ∧
    (fillBufferElem e.quads 5 3 (0, 0) rect false).1.length = 3 ∧
    ∀ j, j < 3 →
      (fillBufferElem e.quads 5 3 (0, 0) rect false).1[j]? = e.quads[5 + j]? := by
  unfold SpriteRenderElement.numQuads at hn
  have h53 : min (e.quads.length - 5) 3 = 3 := by rw [hn]; decide
  have hfill : (fillBufferElem e.quads 5 3 (0, 0) rect false).1 =
      (e.quads.drop 5).take 3 := by
    have hbody : (fillBufferElem e.quads 5 3 (0, 0) rect false).1 =
        List.map (AAQuad.offsetBy (0, 0))
          (if (false : Bool) ∧ rect.width ≠ 0 ∧ rect.height ≠ 0 then
            clipToRect ((e.quads.drop 5).take (min (e.quads.length - 5) 3)) rect
          else (e.quads.drop 5).take (min (e.quads.length - 5) 3)) := rfl
    rw [hbody, if_neg (by simp), h53, map_offsetBy_zero]
  refine ⟨?_, ?_, ?_, ?_⟩
  · unfold Sprite.fillBuffer
    rw [he]
  · show min (e.quads.length - 5) 3 = 3
    rw [hn]
    decide
  · rw [hfill, List.length_take, List.length_drop, hn]
    decide
  · intro j hj
    rw [hfill, List.getElem?_take, if_pos hj, List.getElem?_drop]

/-- Closed instance of C1: the sample fillBuffer call writes no more than
the requested 3 quads and reports exactly what it wrote. -/
theorem fillBuffer_memory_safety_witness :
    exResult.2.2 ≤ 3 ∧ exResult.1.length = exResult.2.2 ∧
    exResult.2.1.length = 6 * exResult.2.2 ∧ exResult.1.length ≤ 3 ∧
    exResult.2.1.length ≤ 6 * 3 :=
  fillBuffer_memory_safety exSprite 5 3 0 (0, 0) ⟨0, 0, 0, 0⟩ false exResult rfl

/-- Closed instance of C2: on the sample 10-quad element, the call with
startingQuad = 5 and maxNumQuads = 3 succeeds, returns 3 and writes 3
quads. -/
theorem fillBuffer_partial_range_witness :
    exSprite.fillBuffer 5 3 0 (0, 0) ⟨0, 0, 0, 0⟩ false =
      some (fillBufferElem exElem.quads 5 3 (0, 0) ⟨0, 0, 0, 0⟩ false) ∧
    (fillBufferElem exElem.quads 5 3 (0, 0) ⟨0, 0, 0, 0⟩ false).2.2 = 3 ∧
    (fillBufferElem exElem.quads 5 3 (0, 0) ⟨0, 0, 0, 0⟩ false).1.length = 3 :=
  ⟨(fillBuffer_partial_range exSprite 0 exElem ⟨0, 0, 0, 0⟩ rfl rfl).1,
   (fillBuffer_partial_range exSprite 0 exElem ⟨0, 0, 0, 0⟩ rfl rfl).2.1,
   (fillBuffer_partial_range exSprite 0 exElem ⟨0, 0, 0, 0⟩ rfl rfl).2.2.1⟩

/-- C3: clipping keeps the quad count unchanged (each quad keeps its slot);
a quad entirely outside the clip rectangle becomes a zero-area quad; a quad
entirely inside is unchanged; an overlapping quad becomes the axis-aligned
intersection of the quad with the rectangle (4 corners, all inside the
rectangle), and the recomputed UVs lie on the original linear UV
parametrization of the quad. -/
theorem clipToRect_quad_behavior (qs : List AAQuad) (q : AAQuad) (r : Rect2I)
    (hq : q.x0 ≤ q.x1 ∧ q.y0 ≤ q.y1) (hr : 0 ≤ r.width ∧ 0 ≤ r.height) :
    (clipToRect qs r).length = qs.length ∧
    (quadOutside q r → AAQuad.area (clipQuad q r) = 0) ∧
    (quadInside q r → clipQuad q r = q) ∧
    (¬quadOutside q r →
      (clipQuad q r).x0 = max q.x0 (r.x : ℚ) ∧
      (clipQuad q r).x1 = min q.x1 ((r.x : ℚ) + r.width) ∧
      (clipQuad q r).y0 = max q.y0 (r.y : ℚ) ∧
      (clipQuad q r).y1 = min q.y1 ((r.y : ℚ) + r.height)) ∧
    ((r.x : ℚ) ≤ (clipQuad q r).x0 ∧ (clipQuad q r).x1 ≤ (r.x : ℚ) + r.width ∧
      (r.y : ℚ) ≤ (clipQuad q r).y0 ∧ (clipQuad q r).y1 ≤ (r.y : ℚ) + r.height) ∧
    (q.x0 ≠ q.x1 →
      ((clipQuad q r).u0 - q.u0) * (q.x1 - q.x0) =
        ((clipQuad q r).x0 - q.x0) * (q.u1 - q.u0) ∧
      ((clipQuad q r).u1 - q.u0) * (q.x1 - q.x0) =
        ((clipQuad q r).x1 - q.x0) * (q.u1 - q.u0)) ∧
    (q.y0 ≠ q.y1 →
      ((clipQuad q r).v0 - q.v0) * (q.y1 - q.y0) =
        ((clipQuad q r).y0 - q.y0) * (q.v1 - q.v0) ∧
      ((clipQuad q r).v1 - q.v0) * (q.y1 - q.y0) =
        ((clipQuad q r).y1 - q.y0) * (q.v1 - q.v0)) := by
  obtain ⟨hqx, hqy⟩ := hq
  have hwq : ((0 : ℤ) : ℚ) ≤ (r.width : ℚ) := by exact_mod_cast hr.1
  have hhq : ((0 : ℤ) : ℚ) ≤ (r.height : ℚ) := by exact_mod_cast hr.2
  have hlr : (r.x : ℚ) ≤ (r.x : ℚ) + r.width := by
    rw [Int.cast_zero] at hwq; linarith
  have htb : (r.y : ℚ) ≤ (r.y : ℚ) + r.height := by
    rw [Int.cast_zero] at hhq; linarith
  have ex0 : (clipQuad q r).x0 = min (max q.x0 (r.x : ℚ)) ((r.x : ℚ) + r.width) := rfl
  have ex1 : (clipQuad q r).x1 = min (max q.x1 (r.x : ℚ)) ((r.x : ℚ) + r.width) := rfl
  have ey0 : (clipQuad q r).y0 = min (max q.y0 (r.y : ℚ)) ((r.y : ℚ) + r.height) := rfl
  have ey1 : (clipQuad q r).y1 = min (max q.y1 (r.y : ℚ)) ((r.y : ℚ) + r.height) := rfl
  have eu0 : (clipQuad q r).u0 = if q.x0 = q.x1 then q.u0 else
      q.u0 + ((clipQuad q r).x0 - q.x0) * (q.u1 - q.u0) / (q.x1 - q.x0) := rfl
  have eu1 : (clipQuad q r).u1 = if q.x0 = q.x1 then q.u1 else
      q.u0 + ((clipQuad q r).x1 - q.x0) * (q.u1 - q.u0) / (q.x1 - q.x0) := rfl
  have ev0 : (clipQuad q r).v0 = if q.y0 = q.y1 then q.v0 else
      q.v0 + ((clipQuad q r).y0 - q.y0) * (q.v1 - q.v0) / (q.y1 - q.y0) := rfl
  have ev1 : (clipQuad q r).v1 = if q.y0 = q.y1 then q.v1 else
      q.v0 + ((clipQuad q r).y1 - q.y0) * (q.v1 - q.v0) / (q.y1 - q.y0) := rfl
  have earea : AAQuad.area (clipQuad q r) =
      ((clipQuad q r).x1 - (clipQuad q r).x0) *
        ((clipQuad q r).y1 - (clipQuad q r).y0) := rfl
  refine ⟨?_, ?_, ?_, ?_, ?_, ?_, ?_⟩
  · simp [clipToRect]
  · intro houts
    rw [earea]
    rcases houts with hx | hx | hy | hy
    · have h0 : max q.x0 (r.x : ℚ) = (r.x : ℚ) :=
        max_eq_right (le_of_lt (lt_of_le_of_lt hqx hx))
      have h1 : max q.x1 (r.x : ℚ) = (r.x : ℚ) := max_eq_right (le_of_lt hx)
      rw [ex0, ex1, h0, h1]
      ring
    · have h0 : min (max q.x0 (r.x : ℚ)) ((r.x : ℚ) + r.width) = (r.x : ℚ) + r.width :=
        min_eq_right (le_of_lt (lt_of_lt_of_le hx (le_max_left _ _)))
      have h1 : min (max q.x1 (r.x : ℚ)) ((r.x : ℚ) + r.width) = (r.x : ℚ) + r.width :=
        min_eq_right (le_of_lt (lt_of_lt_of_le (lt_of_lt_of_le hx hqx) (le_max_left _ _)))
      rw [ex0, ex1, h0, h1]
      ring
    · have h0 : max q.y0 (r.y : ℚ) = (r.y : ℚ) :=
        max_eq_right (le_of_lt (lt_of_le_of_lt hqy hy))
      have h1 : max q.y1 (r.y : ℚ) = (r.y : ℚ) := max_eq_right (le_of_lt hy)
      rw [ey0, ey1, h0, h1]
      ring
    · have h0 : min (max q.y0 (r.y : ℚ)) ((r.y : ℚ) + r.height) = (r.y : ℚ) + r.height :=
        min_eq_right (le_of_lt (lt_of_lt_of_le hy (le_max_left _ _)))
      have h1 : min (max q.y1 (r.y : ℚ)) ((r.y : ℚ) + r.height) = (r.y : ℚ) + r.height :=
        min_eq_right (le_of_lt (lt_of_lt_of_le (lt_of_lt_of_le hy hqy) (le_max_left _ _)))
      rw [ey0, ey1, h0, h1]
      ring
  · intro hins
    obtain ⟨hi1, hi2, hi3, hi4⟩ := hins
    have hx0 : (clipQuad q r).x0 = q.x0 := by
      rw [ex0, max_eq_left hi1, min_eq_left (le_trans hqx hi2)]
    have hx1 : (clipQuad q r).x1 = q.x1 := by
      rw [ex1, max_eq_left (le_trans hi1 hqx), min_eq_left hi2]
    have hy0 : (clipQuad q r).y0 = q.y0 := by
      rw [ey0, max_eq_left hi3, min_eq_left (le_trans hqy hi4)]
    have hy1 : (clipQuad q r).y1 = q.y1 := by
      rw [ey1, max_eq_left (le_trans hi3 hqy), min_eq_left hi4]
    have hu0 : (clipQuad q r).u0 = q.u0 := by
      rw [eu0]
      split
      · rfl
      · rw [hx0]; ring
    have hu1 : (clipQuad q r).u1 = q.u1 := by
      rw [eu1]
      split
      · rfl
      · next hne =>
        rw [hx1]
        field_simp [sub_ne_zero_of_ne (Ne.symm hne)]
    have hv0 : (clipQuad q r).v0 = q.v0 := by
      rw [ev0]
      split
      · rfl
      · rw [hy0]; ring
    have hv1 : (clipQuad q r).v1 = q.v1 := by
      rw [ev1]
      split
      · rfl
      · next hne =>
        rw [hy1]
        field_simp [sub_ne_zero_of_ne (Ne.symm hne)]
    obtain ⟨x0, y0, x1, y1, u0, v0, u1, v1⟩ := q
    simp only at hx0 hx1 hy0 hy1 hu0 hu1 hv0 hv1
    calc clipQuad ⟨x0, y0, x1, y1, u0, v0, u1, v1⟩ r
        = ⟨(clipQuad ⟨x0, y0, x1, y1, u0, v0, u1, v1⟩ r).x0,
           (clipQuad ⟨x0, y0, x1, y1, u0, v0, u1, v1⟩ r).y0,
           (clipQuad ⟨x0, y0, x1, y1, u0, v0, u1, v1⟩ r).x1,
           (clipQuad ⟨x0, y0, x1, y1, u0, v0, u1, v1⟩ r).y1,
           (clipQuad ⟨x0, y0, x1, y1, u0, v0, u1, v1⟩ r).u0,
           (clipQuad ⟨x0, y0, x1, y1, u0, v0, u1, v1⟩ r).v0,
           (clipQuad ⟨x0, y0, x1, y1, u0, v0, u1, v1⟩ r).u1,
           (clipQuad ⟨x0, y0, x1, y1, u0, v0, u1, v1⟩ r).v1⟩ := rfl
      _ = ⟨x0, y0, x1, y1, u0, v0, u1, v1⟩ := by
          rw [hx0, hx1, hy0, hy1, hu0, hu1, hv0, hv1]
  · intro hno
    unfold quadOutside at hno
    push_neg at hno
    obtain ⟨hn1, hn2, hn3, hn4⟩ := hno
    refine ⟨?_, ?_, ?_, ?_⟩
    · rw [ex0]
      exact min_eq_left (max_le hn2 hlr)
    · rw [ex1, max_eq_left hn1]
    · rw [ey0]
      exact min_eq_left (max_le hn4 htb)
    · rw [ey1, max_eq_left hn3]
  · refine ⟨?_, ?_, ?_, ?_⟩
    · rw [ex0]
      exact le_min (le_max_right _ _) hlr
    · rw [ex1]
      exact min_le_right _ _
    · rw [ey0]
      exact le_min (le_max_right _ _) htb
    · rw [ey1]
      exact min_le_right _ _
  · intro hne
    have hsub : q.x1 - q.x0 ≠ 0 := sub_ne_zero_of_ne (Ne.symm hne)
    constructor
    · rw [eu0, if_neg hne]
      field_simp
      ring
    · rw [eu1, if_neg hne]
      field_simp
      ring
  · intro hne
    have hsub : q.y1 - q.y0 ≠ 0 := sub_ne_zero_of_ne (Ne.symm hne)
    constructor
    · rw [ev0, if_neg hne]
      field_simp
      ring
    · rw [ev1, if_neg hne]
      field_simp
      ring

/-- Closed instance of C3: clipping the sample single-quad buffer keeps its
length, and a concrete quad straddling the clip rectangle gets its corners
clamped into the rectangle, the lower-left span being the intersection. -/
theorem clipToRect_quad_behavior_witness :
    (clipToRect [exQuad 0] ⟨1, 1, 4, 4⟩).length = [exQuad 0].length ∧
    (((1 : ℤ) : ℚ) ≤ (clipQuad ⟨0, 0, 2, 2, 0, 0, 1, 1⟩ ⟨1, 1, 4, 4⟩).x0 ∧
      (clipQuad ⟨0, 0, 2, 2, 0, 0, 1, 1⟩ ⟨1, 1, 4, 4⟩).x1 ≤ ((1 : ℤ) : ℚ) + ((4 : ℤ) : ℚ) ∧
      ((1 : ℤ) : ℚ) ≤ (clipQuad ⟨0, 0, 2, 2, 0, 0, 1, 1⟩ ⟨1, 1, 4, 4⟩).y0 ∧
      (clipQuad ⟨0, 0, 2, 2, 0, 0, 1, 1⟩ ⟨1, 1, 4, 4⟩).y1 ≤ ((1 : ℤ) : ℚ) + ((4 : ℤ) : ℚ)) ∧
    (clipQuad ⟨0, 0, 2, 2, 0, 0, 1, 1⟩ ⟨1, 1, 4, 4⟩).x0 = max (0 : ℚ) ((1 : ℤ) : ℚ) :=
  ⟨(clipToRect_quad_behavior [exQuad 0] ⟨0, 0, 2, 2, 0, 0, 1, 1⟩ ⟨1, 1, 4, 4⟩
      (by norm_num) (by norm_num)).1,
   (clipToRect_quad_behavior [exQuad 0] ⟨0, 0, 2, 2, 0, 0, 1, 1⟩ ⟨1, 1, 4, 4⟩
      (by norm_num) (by norm_num)).2.2.2.2.1,
   ((clipToRect_quad_behavior [exQuad 0] ⟨0, 0, 2, 2, 0, 0, 1, 1⟩ ⟨1, 1, 4, 4⟩
      (by norm_num) (by norm_num)).2.2.2.1 (by norm_num [quadOutside])).1⟩

/-- A right fold by min is a lower bound of the start value and of every
list entry. -/
theorem foldr_min_le (a : ℚ) (l : List ℚ) :
    l.foldr min a ≤ a ∧ ∀ x ∈ l, l.foldr min a ≤ x := by
  induction l with
  | nil => simp
  | cons b t ih =>
    refine ⟨le_trans (min_le_right _ _) ih.1, ?_⟩
    intro x hx
    rcases List.mem_cons.mp hx with rfl | hx
    · exact min_le_left _ _
    · exact le_trans (min_le_right _ _) (ih.2 x hx)

/-- A right fold by max is an upper bound of the start value and of every
list entry. -/
theorem le_foldr_max (a : ℚ) (l : List ℚ) :
    a ≤ l.foldr max a ∧ ∀ x ∈ l, x ≤ l.foldr max a := by
  induction l with
  | nil => simp
  | cons b t ih =>
    refine ⟨le_trans ih.1 (le_max_right _ _), ?_⟩
    intro x hx
    rcases List.mem_cons.mp hx with rfl | hx
    · exact le_max_left _ _
    · exact le_trans (ih.2 x hx) (le_max_right _ _)

/-- The recomputed bounds contain every vertex of every cached render
element: updateBounds is a union bound of the vertex extents. -/
theorem updateBounds_contains (s : Sprite) :
    ∀ p ∈ s.allPoints,
      ((s.updateBounds.x : ℚ) ≤ p.1 ∧
        p.1 ≤ (s.updateBounds.x : ℚ) + s.updateBounds.width ∧
        (s.updateBounds.y : ℚ) ≤ p.2 ∧
        p.2 ≤ (s.updateBounds.y : ℚ) + s.updateBounds.height) := by
  intro p hp
  cases hAll : s.allPoints with
  | nil => rw [hAll] at hp; cases hp
  | cons p0 ps =>
    rw [hAll] at hp
    have hb : s.updateBounds =
        ⟨⌊(ps.map Prod.fst).foldr min p0.1⌋,
         ⌊(ps.map Prod.snd).foldr min p0.2⌋,
         ⌈(ps.map Prod.fst).foldr max p0.1⌉ - ⌊(ps.map Prod.fst).foldr min p0.1⌋,
         ⌈(ps.map Prod.snd).foldr max p0.2⌉ - ⌊(ps.map Prod.snd).foldr min p0.2⌋⟩ := by
      unfold Sprite.updateBounds
      rw [hAll]
    have hminx : (ps.map Prod.fst).foldr min p0.1 ≤ p.1 := by
      rcases List.mem_cons.mp hp with rfl | hmem
      · exact (foldr_min_le _ _).1
      · exact (foldr_min_le _ _).2 p.1 (List.mem_map_of_mem Prod.fst hmem)
    have hmaxx : p.1 ≤ (ps.map Prod.fst).foldr max p0.1 := by
      rcases List.mem_cons.mp hp with rfl | hmem
      · exact (le_foldr_max _ _).1
      · exact (le_foldr_max _ _).2 p.1 (List.mem_map_of_mem Prod.fst hmem)
    have hminy : (ps.map Prod.snd).foldr min p0.2 ≤ p.2 := by
      rcases List.mem_cons.mp hp with rfl | hmem
      · exact (foldr_min_le _ _).1
      · exact (foldr_min_le _ _).2 p.2 (List.mem_map_of_mem Prod.snd hmem)
    have hmaxy : p.2 ≤ (ps.map Prod.snd).foldr max p0.2 := by
      rcases List.mem_cons.mp hp with rfl | hmem
      · exact (le_foldr_max _ _).1
      · exact (le_foldr_max _ _).2 p.2 (List.mem_map_of_mem Prod.snd hmem)
    rw [hb]
    simp only
    have hfx := Int.floor_le ((ps.map Prod.fst).foldr min p0.1)
    have hcx := Int.le_ceil ((ps.map Prod.fst).foldr max p0.1)
    have hfy := Int.floor_le ((ps.map Prod.snd).foldr min p0.2)
    have hcy := Int.le_ceil ((ps.map Prod.snd).foldr max p0.2)
    refine ⟨by linarith, ?_, by linarith, ?_⟩
    · push_cast
      linarith
    · push_cast
      linarith

/-- C4: getBounds returns the union bounds of the cached render elements
shifted by the offset; when the clip rectangle has nonzero width and
nonzero height the bounds are clipped against it before the offset is
applied, and when its width or height is zero no clipping happens. -/
theorem getBounds_spec (s : Sprite) (offset : ℤ × ℤ) (clipRect : Rect2I) :
    (clipRect.width ≠ 0 ∧ clipRect.height ≠ 0 →
      s.getBounds offset clipRect =
        (Rect2I.clip s.updateBounds clipRect).shiftBy offset) ∧
    (clipRect.width = 0 ∨ clipRect.height = 0 →
      s.getBounds offset clipRect = s.updateBounds.shiftBy offset) ∧
    (∀ p ∈ s.allPoints,
      ((s.updateBounds.x : ℚ) ≤ p.1 ∧
        p.1 ≤ (s.updateBounds.x : ℚ) + s.updateBounds.width ∧
        (s.updateBounds.y : ℚ) ≤ p.2 ∧
        p.2 ≤ (s.updateBounds.y : ℚ) + s.updateBounds.height)) := by
  refine ⟨?_, ?_, updateBounds_contains s⟩
  · intro h
    unfold Sprite.getBounds
    dsimp only
    rw [if_pos h]
  · intro h
    unfold Sprite.getBounds
    dsimp only
    rw [if_neg (fun hc : clipRect.width ≠ 0 ∧ clipRect.height ≠ 0 =>
      h.elim (fun e => hc.1 e) (fun e => hc.2 e))]

/-- Closed instance of C4: on the sample sprite, a nonzero-sized clip
rectangle is applied before the offset, and a zero-height clip rectangle is
ignored. -/
theorem getBounds_spec_witness :
    exSprite.getBounds (1, 2) ⟨0, 0, 3, 3⟩ =
      (Rect2I.clip exSprite.updateBounds ⟨0, 0, 3, 3⟩).shiftBy (1, 2) ∧
    exSprite.getBounds (1, 2) ⟨0, 0, 3, 0⟩ = exSprite.updateBounds.shiftBy (1, 2) :=
  ⟨(getBounds_spec exSprite (1, 2) ⟨0, 0, 3, 3⟩).1 (by decide),
   (getBounds_spec exSprite (1, 2) ⟨0, 0, 3, 0⟩).2.1 (Or.inr rfl)⟩

end Banshee
